import Mathlib

/-!
Verification development for the documentation testing tool
(`skills/documentation-generator-pro/scripts/test_docs.py`).

The Python program is shallowly embedded: pure text processing becomes Lean
functions on `String` / `List Char`, the mutable `DocumentationTester` object
becomes an explicit `Tester` state threaded through the checks, and the
external world (filesystem existence, subprocess outcomes, network requests)
becomes an explicit `Env` record of oracles.  `Path.resolve()` normalization
(symlink and `..` collapsing) is modeled as the identity, which the properties
below do not depend on.  Python `re` patterns used by the program are all
deterministic (each quantified class excludes the following delimiter), so
they are embedded as direct left-to-right scanners mirroring `re.findall` /
`re.search` semantics: on a match the scan continues after the match, on a
failure it advances one character.  The character classes `\w` and `\s` are
modeled with `Char.isAlphanum`/`'_'` and `Char.isWhitespace`.
-/

/-- Bool test that `pat` is a prefix of the second list (char lists). -/
def isPrefixB : List Char → List Char → Bool
  | [], _ => true
  | _ :: _, [] => false
  | a :: as, b :: bs => a == b && isPrefixB as bs

/-- Bool test that `pat` occurs as a contiguous substring; Python's `in`. -/
def substrB (pat : List Char) : List Char → Bool
  | [] => isPrefixB pat []
  | c :: rest => isPrefixB pat (c :: rest) || substrB pat rest

/-- Python's `pat in s` on strings. -/
def inStr (pat s : String) : Bool := substrB pat.data s.data

/-- Split on a separator character, keeping empty pieces (the behaviour of
Python's `str.split('\n')`); `acc` holds the current piece reversed. -/
def splitOnCharAux (c : Char) : List Char → List Char → List String
  | [], acc => [String.mk acc.reverse]
  | x :: xs, acc =>
    if x == c then String.mk acc.reverse :: splitOnCharAux c xs []
    else splitOnCharAux c xs (x :: acc)

/-- Python `content.split('\n')`. -/
def pySplitLines (s : String) : List String := splitOnCharAux '\n' s.data []

/-- Python `str.strip()` (whitespace from both ends). -/
def pyStrip (s : String) : String :=
  String.mk ((s.data.dropWhile Char.isWhitespace).reverse.dropWhile Char.isWhitespace).reverse

/-- Python `str.startswith(pre)`. -/
def startsWithB (pre s : String) : Bool := isPrefixB pre.data s.data

/-- Python `str.lower()` (ASCII approximation). -/
def pyLower (s : String) : String := String.mk (s.data.map Char.toLower)

/-- Auxiliary counter for non-overlapping substring occurrences: `skip` chars
still to pass over after a previous match (Python `str.count` semantics). -/
def countSubstrAux (pat : List Char) : List Char → Nat → Nat
  | [], _ => 0
  | _ :: rest, Nat.succ k => countSubstrAux pat rest k
  | c :: rest, 0 =>
    if isPrefixB pat (c :: rest) then Nat.succ (countSubstrAux pat rest (pat.length - 1))
    else countSubstrAux pat rest 0

/-- Python `str.count` for a nonempty pattern: non-overlapping, left to right. -/
def countSubstr (pat text : List Char) : Nat := countSubstrAux pat text 0

/-- Python `c in str` for a single character. -/
def containsChar (s : String) (c : Char) : Bool := s.data.contains c

/-- Python `pathlib.Path.parent` on a path string: everything before the last
separator, `"."` when there is none. -/
def parentOf (p : String) : String :=
  if containsChar p '/' then
    String.mk (((p.data.reverse.dropWhile (fun c => c != '/')).drop 1).reverse)
  else "."

/-- Left-to-right regex scan with fuel, mirroring `re.findall`: on a match the
scan resumes after the consumed text, otherwise it advances one character.
Every matcher below consumes at least one character on success, so fuel equal
to the length of the scanned text never runs out. -/
def scanAll {β : Type} (m : List Char → Option (β × List Char)) : Nat → List Char → List β
  | 0, _ => []
  | _ + 1, [] => []
  | fuel + 1, c :: rest =>
    match m (c :: rest) with
    | some (b, r) => b :: scanAll m fuel r
    | none => scanAll m fuel rest

/-- `re.findall` driver for a single-match function. -/
def findallM {β : Type} (m : List Char → Option (β × List Char)) (l : List Char) : List β :=
  scanAll m l.length l

/-- Model of the regex class `\w` (ASCII approximation). -/
def isWordChar (c : Char) : Bool := c.isAlphanum || c == '_'

/-- One match of `\[([^\]]+)\]\(\s*\)` (an empty link), returning the label
capture and the rest of the text. -/
def tryEmptyLink : List Char → Option (String × List Char)
  | [] => none
  | c :: rest =>
    if c = '[' then
      let label := rest.takeWhile (fun x => x != ']')
      if label.isEmpty then none
      else
        match rest.drop label.length with
        | ']' :: '(' :: rest2 =>
          let ws := rest2.takeWhile (fun x => x.isWhitespace)
          match rest2.drop ws.length with
          | ')' :: rest3 => some (String.mk label, rest3)
          | _ => none
        | _ => none
    else none

/-- One match of `\[([^\]]+)\]\(([^\)]+)\)` (a markdown link), returning the
(text, target) captures. -/
def tryLink : List Char → Option ((String × String) × List Char)
  | [] => none
  | c :: rest =>
    if c = '[' then
      let label := rest.takeWhile (fun x => x != ']')
      if label.isEmpty then none
      else
        match rest.drop label.length with
        | ']' :: '(' :: rest2 =>
          let url := rest2.takeWhile (fun x => x != ')')
          if url.isEmpty then none
          else
            match rest2.drop url.length with
            | ')' :: rest3 => some ((String.mk label, String.mk url), rest3)
            | _ => none
        | _ => none
    else none

/-- One match of `\[([^\]]+)\]\((https?://[^\)]+)\)` (an external link). -/
def tryExtLink : List Char → Option ((String × String) × List Char)
  | [] => none
  | c :: rest =>
    if c = '[' then
      let label := rest.takeWhile (fun x => x != ']')
      if label.isEmpty then none
      else
        match rest.drop label.length with
        | ']' :: '(' :: rest2 =>
          let url := rest2.takeWhile (fun x => x != ')')
          if (isPrefixB "http://".data url && decide (7 < url.length))
              || (isPrefixB "https://".data url && decide (8 < url.length)) then
            match rest2.drop url.length with
            | ')' :: rest3 => some ((String.mk label, String.mk url), rest3)
            | _ => none
          else none
        | _ => none
    else none

/-- One match of the alternation `TODO|FIXME|XXX` (tried in that order). -/
def tryTodo (l : List Char) : Option (String × List Char) :=
  if isPrefixB "TODO".data l then some ("TODO", l.drop 4)
  else if isPrefixB "FIXME".data l then some ("FIXME", l.drop 5)
  else if isPrefixB "XXX".data l then some ("XXX", l.drop 3)
  else none

/-- Split at the first occurrence of a closing triple fence, returning the text
before it and the text after it (the lazy `(.*?)` body of the block regex). -/
def findClose : List Char → Option (List Char × List Char)
  | [] => none
  | c :: rest =>
    if isPrefixB "```".data (c :: rest) then some ([], rest.drop 2)
    else
      match findClose rest with
      | some (b, r) => some (c :: b, r)
      | none => none

/-- One match of the DOTALL pattern for fenced code blocks with a language tag,
returning the (language, body) captures. -/
def tryCodeBlock (l : List Char) : Option ((String × String) × List Char) :=
  if isPrefixB "```".data l then
    let rest := l.drop 3
    let w := rest.takeWhile isWordChar
    if w.isEmpty then none
    else
      match rest.drop w.length with
      | '\n' :: rest2 =>
        match findClose rest2 with
        | some (body, rest3) => some ((String.mk w, String.mk body), rest3)
        | none => none
      | _ => none
  else none

/-- `re.findall(r'\[([^\]]+)\]\(\s*\)', content)`. -/
def findEmptyLinks (l : List Char) : List String := findallM tryEmptyLink l

/-- `re.findall(r'\[([^\]]+)\]\(([^\)]+)\)', content)`. -/
def findLinks (l : List Char) : List (String × String) := findallM tryLink l

/-- `re.findall(r'\[([^\]]+)\]\((https?://[^\)]+)\)', content)`. -/
def findExtLinks (l : List Char) : List (String × String) := findallM tryExtLink l

/-- `re.findall(r'TODO|FIXME|XXX', content)`. -/
def findTodos (l : List Char) : List String := findallM tryTodo l

/-- Code blocks of `_test_code_examples`. -/
def findCodeBlocks (l : List Char) : List (String × String) := findallM tryCodeBlock l

/-- Case-insensitive literal word match dropping the matched text
(the word is given in lowercase). -/
def dropCI : List Char → List Char → Option (List Char)
  | [], l => some l
  | _ :: _, [] => none
  | w :: ws, c :: cs => if c.toLower == w then dropCI ws cs else none

/-- Match of `w\s+w\b` at the head of the text (case-insensitive). -/
def dupMatchAt (w : List Char) (l : List Char) : Bool :=
  match dropCI w l with
  | none => false
  | some r1 =>
    let ws := r1.takeWhile (fun c => c.isWhitespace)
    if ws.isEmpty then false
    else
      match dropCI w (r1.drop ws.length) with
      | none => false
      | some r2 =>
        match r2 with
        | [] => true
        | c :: _ => !(isWordChar c)

/-- Scan for `\bw\s+w\b`, tracking whether the previous character was a word
character (the leading boundary). -/
def searchDupAux (w : List Char) : Bool → List Char → Bool
  | _, [] => false
  | prevW, c :: rest =>
    (!prevW && dupMatchAt w (c :: rest)) || searchDupAux w (isWordChar c) rest

/-- `re.search(r'\bw\s+w\b', content, re.IGNORECASE) is not None`. -/
def searchDupWord (w : List Char) (content : List Char) : Bool :=
  searchDupAux w false content

/-- Finding messages of the tool, one constructor per `f`-string in the
source, carrying the interpolated data. -/
inductive Msg where
  | multipleH1 : Msg
  | emptyLinks (labels : List String) : Msg
  | unclosedCodeBlock : Msg
  | skippedHeading (line prev lvl : Nat) : Msg
  | brokenLink (url path : String) : Msg
  | todoMarkers (n : Nat) : Msg
  | longLine (line len : Nat) : Msg
  | typo (desc : String) : Msg
  | pySyntaxError (stderr : String) : Msg
  | pyTimeout : Msg
  | pyCouldNotTest (e : String) : Msg
  | jsSyntaxError (stderr : String) : Msg
  | jsTimeout : Msg
  | jsCouldNotTest (e : String) : Msg
  | bashUnmatchedQuotes (line : String) : Msg
deriving DecidableEq

/-- Exact message strings of the source, for reference. -/
def Msg.render : Msg → String
  | .multipleH1 => "Multiple H1 headers found (should have only one)"
  | .emptyLinks labels => "Empty links found: " ++ String.intercalate ", " labels
  | .unclosedCodeBlock => "Unclosed code block (odd number of ```)"
  | .skippedHeading line prev lvl =>
      "Line " ++ toString line ++ ": Skipped heading level (went from H" ++ toString prev
        ++ " to H" ++ toString lvl ++ ")"
  | .brokenLink url path => "Broken link: " ++ url ++ " -> " ++ path
  | .todoMarkers n => "Found " ++ toString n ++ " TODO/FIXME markers"
  | .longLine line len =>
      "Line " ++ toString line ++ ": Very long line (" ++ toString len ++ " chars)"
  | .typo desc => "Possible typo: " ++ desc
  | .pySyntaxError stderr => "Python code syntax error:\n" ++ stderr
  | .pyTimeout => "Python code test timed out"
  | .pyCouldNotTest e => "Could not test Python code: " ++ e
  | .jsSyntaxError stderr => "JavaScript code syntax error:\n" ++ stderr
  | .jsTimeout => "JavaScript code test timed out"
  | .jsCouldNotTest e => "Could not test JavaScript code: " ++ e
  | .bashUnmatchedQuotes line => "Bash code may have unmatched quotes: " ++ line

/-- The `self.stats` dictionary. -/
structure Stats where
  files_checked : Nat
  links_checked : Nat
  code_blocks_tested : Nat
  errors : Nat
  warnings : Nat
deriving DecidableEq

def Stats.bumpFiles (s : Stats) : Stats :=
  ⟨s.files_checked + 1, s.links_checked, s.code_blocks_tested, s.errors, s.warnings⟩

def Stats.bumpLinks (s : Stats) : Stats :=
  ⟨s.files_checked, s.links_checked + 1, s.code_blocks_tested, s.errors, s.warnings⟩

def Stats.bumpBlocks (s : Stats) : Stats :=
  ⟨s.files_checked, s.links_checked, s.code_blocks_tested + 1, s.errors, s.warnings⟩

def Stats.bumpErrors (s : Stats) : Stats :=
  ⟨s.files_checked, s.links_checked, s.code_blocks_tested, s.errors + 1, s.warnings⟩

def Stats.bumpWarnings (s : Stats) : Stats :=
  ⟨s.files_checked, s.links_checked, s.code_blocks_tested, s.errors, s.warnings + 1⟩

/-- The `DocumentationTester` object: `docs_path`, the `errors` and
`warnings` lists of `(filepath, message)` pairs, and `stats`. -/
structure Tester where
  docs_path : String
  errors : List (String × Msg)
  warnings : List (String × Msg)
  stats : Stats
deriving DecidableEq

/-- `DocumentationTester.__init__`. -/
def initTester (docs_path : String) : Tester := ⟨docs_path, [], [], ⟨0, 0, 0, 0, 0⟩⟩

/-- `_add_error`: append to `self.errors`, increment `stats["errors"]`. -/
def add_error (t : Tester) (fp : String) (m : Msg) : Tester :=
  ⟨t.docs_path, t.errors ++ [(fp, m)], t.warnings, t.stats.bumpErrors⟩

/-- `_add_warning`: append to `self.warnings`, increment `stats["warnings"]`. -/
def add_warning (t : Tester) (fp : String) (m : Msg) : Tester :=
  ⟨t.docs_path, t.errors, t.warnings ++ [(fp, m)], t.stats.bumpWarnings⟩

/-- Replace the stats of a tester (used for the counter increments that are
not part of `_add_error` and `_add_warning`). -/
def Tester.withStats (t : Tester) (s : Stats) : Tester := ⟨t.docs_path, t.errors, t.warnings, s⟩

/-- Outcome of one `subprocess.run` call: normal completion with an exit code
and captured stderr, `subprocess.TimeoutExpired`, or any other exception. -/
inductive SubpOutcome where
  | completed (returncode : Int) (stderr : String) : SubpOutcome
  | timedOut : SubpOutcome
  | failed (msg : String) : SubpOutcome
deriving DecidableEq

/-- Outcome of one `requests.head` call: a status code or a
`requests.RequestException` rendered as a string. -/
inductive ExtOutcome where
  | status (code : Nat) : ExtOutcome
  | reqFailure (msg : String) : ExtOutcome
deriving DecidableEq

/-- The external world: subprocess oracles keyed by the code text written to
the temporary file, `node --version` availability, filesystem existence, and
the network oracle of the external link checker. -/
structure Env where
  nodeAvailable : Bool
  pyOutcome : String → SubpOutcome
  jsOutcome : String → SubpOutcome
  fsExists : String → Bool
  requestsAvailable : Bool
  extResult : String → ExtOutcome

/-- A markdown document discovered under the root: its path and raw text. -/
structure Doc where
  path : String
  content : String
deriving DecidableEq

/-- The H1 count of `_check_markdown_syntax` (line 80): lines whose stripped
text starts with a level-1 heading marker and not a deeper heading marker. -/
def h1Count (content : String) : Nat :=
  ((pySplitLines content).filter
    (fun line => startsWithB "# " (pyStrip line) && !(startsWithB "##" (pyStrip line)))).length

/-- `content.count('```')` (line 90). -/
def fenceCount (content : String) : Nat := countSubstr "```".data content.data

/-- Lines 79-82: more than one H1 header is reported through `_add_warning`. -/
def check_h1 (t : Tester) (fp content : String) : Tester :=
  if h1Count content > 1 then add_warning t fp Msg.multipleH1 else t

/-- Lines 84-87: empty links are an error listing the link labels. -/
def check_empty_links (t : Tester) (fp content : String) : Tester :=
  let empty_links := findEmptyLinks content.data
  if !empty_links.isEmpty then add_error t fp (Msg.emptyLinks empty_links) else t

/-- Lines 89-92: an odd total fence count is an error. -/
def check_fences (t : Tester) (fp content : String) : Tester :=
  if fenceCount content % 2 != 0 then add_error t fp Msg.unclosedCodeBlock else t

/-- One iteration of the heading-hierarchy loop (lines 95-104); the state is
`(prev_level, tester)` and the input is `(line number, line)`. -/
def heading_step (fp : String) (st : Nat × Tester) (p : Nat × String) : Nat × Tester :=
  if startsWithB "#" (pyStrip p.2) then
    let level := (p.2.data.takeWhile (fun c => c == '#')).length
    let t2 :=
      if level > st.1 + 1 && st.1 > 0 then
        add_warning st.2 fp (Msg.skippedHeading p.1 st.1 level)
      else st.2
    (level, t2)
  else st

/-- Lines 94-104: heading-hierarchy warnings. -/
def check_heading_hierarchy (t : Tester) (fp content : String) : Tester :=
  ((List.enumFrom 1 (pySplitLines content)).foldl (heading_step fp) (0, t)).2

/-- `_check_markdown_syntax`: the four structural checks in source order. -/
def check_markdown (t : Tester) (fp content : String) : Tester :=
  check_heading_hierarchy
    (check_fences (check_empty_links (check_h1 t fp content) fp content) fp content)
    fp content

/-- Lines 123-133 of `_check_links`: resolve a local link target against the
document directory or the docs root, then strip any `#` fragment before the
existence check (`Path.resolve` normalization is modeled as the identity). -/
def resolve_link_path (root parent url : String) : String :=
  let link_path :=
    if !(startsWithB "/" url) then parent ++ "/" ++ url
    else root ++ "/" ++ String.mk (url.data.dropWhile (fun c => c == '/'))
  if containsChar link_path '#' then String.mk (link_path.data.takeWhile (fun c => c != '#'))
  else link_path

/-- One iteration of the link loop of `_check_links` (lines 111-136). -/
def check_one_link (env : Env) (fp : String) (t : Tester) (lk : String × String) : Tester :=
  let t := t.withStats t.stats.bumpLinks
  let url := lk.2
  if startsWithB "#" url then t
  else if startsWithB "http://" url || startsWithB "https://" url then t
  else if startsWithB "mailto:" url then t
  else
    let link_path := resolve_link_path t.docs_path (parentOf fp) url
    if env.fsExists link_path then t
    else add_error t fp (Msg.brokenLink url link_path)

/-- `_check_links`; the `fix` flag is accepted and unused, as in the source. -/
def check_links (env : Env) (t : Tester) (fp content : String) (fix : Bool) : Tester :=
  (findLinks content.data).foldl (check_one_link env fp) t

/-- Lines 140-143: TODO/FIXME markers are one warning carrying the count. -/
def check_todos (t : Tester) (fp content : String) : Tester :=
  let todos := findTodos content.data
  if !todos.isEmpty then add_warning t fp (Msg.todoMarkers todos.length) else t

/-- One iteration of the long-line loop (lines 146-154); the state is
`(in_code_block, tester)`. -/
def long_line_step (fp : String) (st : Bool × Tester) (p : Nat × String) : Bool × Tester :=
  if startsWithB "```" (pyStrip p.2) then (!st.1, st.2)
  else if !st.1 && p.2.length > 120 then
    (st.1, add_warning st.2 fp (Msg.longLine p.1 p.2.length))
  else st

/-- Lines 145-154: very long prose lines (code-block lines excluded). -/
def check_long_lines (t : Tester) (fp content : String) : Tester :=
  ((List.enumFrom 1 (pySplitLines content)).foldl (long_line_step fp) (false, t)).2

/-- Lines 156-165: duplicate-word typo patterns, in dictionary order. -/
def check_typos (t : Tester) (fp content : String) : Tester :=
  let t1 :=
    if searchDupWord "the".data content.data then add_warning t fp (Msg.typo "duplicate \"the\"")
    else t
  let t2 :=
    if searchDupWord "of".data content.data then add_warning t1 fp (Msg.typo "duplicate \"of\"")
    else t1
  if searchDupWord "is".data content.data then add_warning t2 fp (Msg.typo "duplicate \"is\"")
  else t2

/-- `_check_common_issues`. -/
def check_common_issues (t : Tester) (fp content : String) : Tester :=
  check_typos (check_long_lines (check_todos t fp content) fp content) fp content

/-- Lines 190-192 and 222-223: placeholder markers that suppress testing. -/
def hasPlaceholder (code : String) : Bool :=
  inStr "YOUR_API_KEY" code || inStr "your-" (pyLower code) || inStr "example.com" code

/-- The `try/except` classification of the Python syntax check
(lines 199-216): nonzero exit is an error with the captured stderr, a timeout
and any other exception are warnings. -/
def py_result_findings (t : Tester) (fp : String) (out : SubpOutcome) : Tester :=
  match out with
  | .completed rc stderr => if rc != 0 then add_error t fp (Msg.pySyntaxError stderr) else t
  | .timedOut => add_warning t fp Msg.pyTimeout
  | .failed e => add_warning t fp (Msg.pyCouldNotTest e)

/-- The same classification for the node syntax check (lines 237-254). -/
def js_result_findings (t : Tester) (fp : String) (out : SubpOutcome) : Tester :=
  match out with
  | .completed rc stderr => if rc != 0 then add_error t fp (Msg.jsSyntaxError stderr) else t
  | .timedOut => add_warning t fp Msg.jsTimeout
  | .failed e => add_warning t fp (Msg.jsCouldNotTest e)

/-- `_test_python_code` with the temporary-file lifecycle made explicit: the
filesystem is a list of paths, the temp file is appended on creation and the
`finally: Path(temp_file).unlink(missing_ok=True)` removes it on every exit
path of the `try`. -/
def test_python_code_fs (fs : List String) (temp_file : String) (t : Tester)
    (fp code : String) (out : SubpOutcome) : List String × Tester :=
  if hasPlaceholder code then (fs, t)
  else ((fs ++ [temp_file]).filter (fun p => p != temp_file), py_result_findings t fp out)

/-- `_test_javascript_code` with the same explicit temp-file lifecycle; the
`node --version` probe failing makes the method return before creating it. -/
def test_javascript_code_fs (fs : List String) (temp_file : String) (t : Tester)
    (fp code : String) (nodeAvail : Bool) (out : SubpOutcome) : List String × Tester :=
  if hasPlaceholder code then (fs, t)
  else if !nodeAvail then (fs, t)
  else ((fs ++ [temp_file]).filter (fun p => p != temp_file), js_result_findings t fp out)

/-- `_test_python_code` as it acts on the tester (the temp-file name is
immaterial to the findings). -/
def test_python_code (env : Env) (t : Tester) (fp code : String) : Tester :=
  (test_python_code_fs [] "tmp.py" t fp code (env.pyOutcome code)).2

/-- `_test_javascript_code` as it acts on the tester. -/
def test_javascript_code (env : Env) (t : Tester) (fp code : String) : Tester :=
  (test_javascript_code_fs [] "tmp.js" t fp code env.nodeAvailable (env.jsOutcome code)).2

/-- The dangerous-command substrings of `_test_bash_code` (line 261). -/
def dangerousCmds : List String := ["rm -rf", "dd if=", "mkfs", ":()\x7b:|:&\x7d;:"]

/-- `_test_bash_code`: heuristic quote counting, never a subprocess. -/
def test_bash_code (t : Tester) (fp code : String) : Tester :=
  if dangerousCmds.any (fun cmd => inStr cmd code) then t
  else if inStr "YOUR_" code || inStr "your-" (pyLower code) then t
  else
    (pySplitLines code).foldl
      (fun t line =>
        let line := pyStrip line
        if line.data.isEmpty || startsWithB "#" line then t
        else if (line.data.filter (fun c => c == Char.ofNat 34)).length % 2 != 0
            || (line.data.filter (fun c => c == Char.ofNat 39)).length % 2 != 0 then
          add_warning t fp (Msg.bashUnmatchedQuotes line)
        else t)
      t

/-- The non-executable language tags of `_test_code_examples` (line 176). -/
def nonExecutable : List String := ["text", "markdown", "json", "yaml", "yml", "output"]

/-- One iteration of the code-block loop of `_test_code_examples`
(lines 172-186): skip the non-executable tags, count the block as tested,
then dispatch on the language. -/
def code_block_step (env : Env) (fp : String) (t : Tester) (p : String × String) : Tester :=
  let lang := pyLower p.1
  if nonExecutable.contains lang then t
  else
    let t := t.withStats t.stats.bumpBlocks
    if lang = "python" then test_python_code env t fp p.2
    else if lang = "javascript" || lang = "js" then test_javascript_code env t fp p.2
    else if lang = "bash" then test_bash_code t fp p.2
    else t

/-- `_test_code_examples`. -/
def test_code_examples (env : Env) (t : Tester) (fp content : String) : Tester :=
  (findCodeBlocks content.data).foldl (code_block_step env fp) t

/-- The per-file body of the loop in `run_all_tests` (lines 53-68):
`node_modules` and `.git` paths are skipped, `files_checked` is incremented,
then the three checks run, then optionally the code examples. -/
def process_file (env : Env) (execute_examples fix : Bool) (t : Tester) (d : Doc) : Tester :=
  if inStr "node_modules" d.path || inStr ".git" d.path then t
  else
    let t := t.withStats t.stats.bumpFiles
    let t := check_markdown t d.path d.content
    let t := check_links env t d.path d.content fix
    let t := check_common_issues t d.path d.content
    if execute_examples then test_code_examples env t d.path d.content else t

/-- `run_all_tests`: `False` when no markdown files were found, otherwise the
fold over the files and the verdict `stats["errors"] == 0`. -/
def run_all_tests (env : Env) (t : Tester) (files : List Doc)
    (execute_examples fix : Bool) : Tester × Bool :=
  if files.isEmpty then (t, false)
  else
    let t2 := files.foldl (process_file env execute_examples fix) t
    (t2, t2.stats.errors == 0)

/-- `LinkChecker.check_external_links`: a swept list of broken
`(file, url, reason)` tuples; an unavailable `requests` module degrades to an
empty list, and only `node_modules` paths are skipped here. -/
def check_external_links (env : Env) (files : List Doc) : List (String × String × String) :=
  if !env.requestsAvailable then []
  else
    files.foldl
      (fun broken d =>
        if inStr "node_modules" d.path then broken
        else
          (findExtLinks d.content.data).foldl
            (fun b lk =>
              match env.extResult lk.2 with
              | .status code =>
                if 400 ≤ code then b ++ [(d.path, lk.2, "HTTP " ++ toString code)] else b
              | .reqFailure e => b ++ [(d.path, lk.2, e)])
            broken)
      []

/-- `main` (lines 363-424) reduced to its exit status: a missing docs path
exits 1; `--all` turns on example execution and link checking; broken
external links force failure; exit `0 if success else 1`. -/
def main_run (env : Env) (path : String) (files : List Doc)
    (execute_examples check_links_flag fix all_flag : Bool) : Nat :=
  if env.fsExists path = false then 1
  else
    let execute := if all_flag then true else execute_examples
    let checkL := if all_flag then true else check_links_flag
    let success := (run_all_tests env (initTester path) files execute fix).2
    let success2 :=
      if checkL then
        if (check_external_links env files).isEmpty = false then false else success
      else success
    if success2 then 0 else 1

/-- Modelled from the spec: the Link Resolver contract of the claim, stated in
its words — a document-relative target resolves against the containing
document's directory, a root-relative target against the validation root with
the leading separator stripped, and the trailing `#...` fragment is stripped
before the existence check.  Used only for the refinement comparison with
`resolve_link_path`. -/
def resolveLocalSpec (root parent url : String) : String :=
  let base :=
    if startsWithB "/" url then root ++ "/" ++ String.mk (url.data.dropWhile (fun c => c == '/'))
    else parent ++ "/" ++ url
  String.mk (base.data.takeWhile (fun c => c != '#'))

/-- Count the findings of a list that satisfy a message predicate. -/
def countMsg (l : List (String × Msg)) (p : Msg → Bool) : Nat :=
  (l.filter (fun x => p x.2)).length

/-- Predicate for the fence-parity finding. -/
def Msg.isUnclosed : Msg → Bool
  | .unclosedCodeBlock => true
  | _ => false

/-- Predicate for the multiple-top-level-headings finding. -/
def Msg.isMultH1 : Msg → Bool
  | .multipleH1 => true
  | _ => false

/-- Componentwise order on the statistics counters. -/
def statsLe (a b : Stats) : Prop :=
  a.files_checked ≤ b.files_checked ∧ a.links_checked ≤ b.links_checked ∧
  a.code_blocks_tested ≤ b.code_blocks_tested ∧ a.errors ≤ b.errors ∧ a.warnings ≤ b.warnings

/-- Concrete environment where every check succeeds and `requests` is absent. -/
def envBase : Env :=
  ⟨true, fun _ => SubpOutcome.completed 0 "", fun _ => SubpOutcome.completed 0 "",
    fun _ => true, false, fun _ => ExtOutcome.status 200⟩

/-- Concrete environment where every subprocess syntax check times out. -/
def envTimedOut : Env :=
  ⟨true, fun _ => SubpOutcome.timedOut, fun _ => SubpOutcome.timedOut,
    fun _ => true, false, fun _ => ExtOutcome.status 200⟩

/-- Concrete environment where every subprocess syntax check fails with
exit code 1 and stderr "boom". -/
def envSynErr : Env :=
  ⟨true, fun _ => SubpOutcome.completed 1 "boom", fun _ => SubpOutcome.completed 1 "boom",
    fun _ => true, false, fun _ => ExtOutcome.status 200⟩

/-- Concrete environment where no filesystem path exists. -/
def envNoFs : Env :=
  ⟨true, fun _ => SubpOutcome.completed 0 "", fun _ => SubpOutcome.completed 0 "",
    fun _ => false, false, fun _ => ExtOutcome.status 200⟩

/-- A document with two top-level headings. -/
def docTwoH1 : Doc := ⟨"docs/a.md", "# a\nx\n# b"⟩

/-- A document with an odd number of triple-fence markers. -/
def docOddFence : Doc := ⟨"docs/b.md", "x\n```\ny"⟩

/-- A plain document producing no findings. -/
def docPlain : Doc := ⟨"docs/c.md", "hello"⟩

theorem statsLe_refl (s : Stats) : statsLe s s :=
  ⟨Nat.le_refl _, Nat.le_refl _, Nat.le_refl _, Nat.le_refl _, Nat.le_refl _⟩

theorem statsLe_trans {a b c : Stats} (h1 : statsLe a b) (h2 : statsLe b c) : statsLe a c :=
  ⟨Nat.le_trans h1.1 h2.1, Nat.le_trans h1.2.1 h2.2.1, Nat.le_trans h1.2.2.1 h2.2.2.1,
    Nat.le_trans h1.2.2.2.1 h2.2.2.2.1, Nat.le_trans h1.2.2.2.2 h2.2.2.2.2⟩

/-- C1 (amended): for a python or javascript block, a nonzero subprocess exit
appends exactly one Error finding carrying the captured stderr; a zero exit
appends nothing; a timeout appends a Warning finding (not an Error); a
placeholder-skipped block appends no finding. -/
theorem c1_subprocess_findings (env : Env) (t : Tester) (fp code stderr : String) (rc : Int) :
    (hasPlaceholder code = true →
      test_python_code env t fp code = t ∧ test_javascript_code env t fp code = t) ∧
    (hasPlaceholder code = false → env.pyOutcome code = SubpOutcome.completed rc stderr →
      rc ≠ 0 → test_python_code env t fp code = add_error t fp (Msg.pySyntaxError stderr)) ∧
    (hasPlaceholder code = false → env.pyOutcome code = SubpOutcome.completed rc stderr →
      rc = 0 → test_python_code env t fp code = t) ∧
    (hasPlaceholder code = false → env.pyOutcome code = SubpOutcome.timedOut →
      test_python_code env t fp code = add_warning t fp Msg.pyTimeout) ∧
    (hasPlaceholder code = false → env.nodeAvailable = true →
      env.jsOutcome code = SubpOutcome.completed rc stderr → rc ≠ 0 →
      test_javascript_code env t fp code = add_error t fp (Msg.jsSyntaxError stderr)) ∧
    (hasPlaceholder code = false → env.nodeAvailable = true →
      env.jsOutcome code = SubpOutcome.timedOut →
      test_javascript_code env t fp code = add_warning t fp Msg.jsTimeout) := by
  refine ⟨?_, ?_, ?_, ?_, ?_, ?_⟩
  · intro h
    constructor <;>
      simp [test_python_code, test_javascript_code, test_python_code_fs,
        test_javascript_code_fs, h]
  · intro h h2 h3
    simp [test_python_code, test_python_code_fs, h, h2, py_result_findings, h3]
  · intro h h2 h3
    simp [test_python_code, test_python_code_fs, h, h2, py_result_findings, h3]
  · intro h h2
    simp [test_python_code, test_python_code_fs, h, h2, py_result_findings]
  · intro h hn h2 h3
    simp [test_javascript_code, test_javascript_code_fs, h, hn, h2, js_result_findings, h3]
  · intro h hn h2
    simp [test_javascript_code, test_javascript_code_fs, h, hn, h2, js_result_findings]

/-- Witness for C1: a failing python syntax check at a concrete input. -/
theorem c1_witness :
    test_python_code envSynErr (initTester "docs") "d.md" "x = (" =
      add_error (initTester "docs") "d.md" (Msg.pySyntaxError "boom") :=
  (c1_subprocess_findings envSynErr (initTester "docs") "d.md" "x = (" "boom" 1).2.1
    (by decide) rfl (by decide)

/-- Counterexample for C1 as stated: a timed-out python check appends a
Warning finding and no Error finding. -/
theorem c1_counterexample :
    (test_python_code envTimedOut (initTester "docs") "d.md" "x = (").errors = [] ∧
    (test_python_code envTimedOut (initTester "docs") "d.md" "x = (").warnings =
      [("d.md", Msg.pyTimeout)] :=
  ⟨rfl, rfl⟩

/-- C2: the temporary file written for a subprocess syntax check is absent
from the filesystem after the call, on every exit path (normal return with
any exit code, timeout, or any other exception — all values of the
`SubpOutcome` oracle). -/
theorem c2_temp_cleanup (fs : List String) (temp fp code : String) (t : Tester)
    (out : SubpOutcome) (nodeA : Bool) (h : hasPlaceholder code = false) :
    temp ∉ (test_python_code_fs fs temp t fp code out).1 ∧
    (nodeA = true → temp ∉ (test_javascript_code_fs fs temp t fp code nodeA out).1) := by
  constructor
  · simp [test_python_code_fs, h, List.mem_filter]
  · intro hn
    simp [test_javascript_code_fs, h, hn, List.mem_filter]

/-- Witness for C2: the temp file is gone after a timed-out check. -/
theorem c2_witness :
    ("tmp123.py" : String) ∉
      (test_python_code_fs ["docs/a.md"] "tmp123.py" (initTester "docs") "d.md" "x = 1"
        SubpOutcome.timedOut).1 :=
  (c2_temp_cleanup ["docs/a.md"] "tmp123.py" "d.md" "x = 1" (initTester "docs")
    SubpOutcome.timedOut true (by decide)).1

/-- C7: a python or javascript block containing a placeholder marker is never
passed to a subprocess (the result is unchanged for every subprocess oracle,
and the temporary file is never created) and appends zero findings. -/
theorem c7_placeholder_never_checked (env : Env) (t : Tester) (fp code : String)
    (h : hasPlaceholder code = true) :
    test_python_code env t fp code = t ∧
    test_javascript_code env t fp code = t ∧
    (∀ fs temp out, test_python_code_fs fs temp t fp code out = (fs, t)) ∧
    (∀ fs temp nodeA out, test_javascript_code_fs fs temp t fp code nodeA out = (fs, t)) := by
  refine ⟨?_, ?_, ?_, ?_⟩ <;>
    simp [test_python_code, test_javascript_code, test_python_code_fs,
      test_javascript_code_fs, h]

/-- Witness for C7: a placeholder block under an oracle that would fail the
syntax check still produces no finding. -/
theorem c7_witness :
    test_python_code envSynErr (initTester "docs") "d.md" "key = YOUR_API_KEY" =
      initTester "docs" :=
  (c7_placeholder_never_checked envSynErr (initTester "docs") "d.md" "key = YOUR_API_KEY"
    (by decide)).1

theorem takeWhile_ne_of_not_contains (c : Char) :
    ∀ l : List Char, l.contains c = false → l.takeWhile (fun x => x != c) = l := by
  intro l
  induction l with
  | nil => intro _; rfl
  | cons a as ih =>
    intro h
    simp only [List.contains_cons, Bool.or_eq_false_iff, beq_eq_false_iff_ne] at h
    simp only [List.takeWhile_cons, bne_iff_ne, ne_eq]
    rw [if_pos (fun hac => h.1 hac.symm), ih h.2]

/-- C5: a document-relative local link resolves against the containing
document's directory, a root-relative one against the validation root with
the leading separator stripped, the `#` fragment is stripped before the
existence check (the source's resolution agrees with the spec-worded
`resolveLocalSpec`), and a link whose resolved path does not exist appends
exactly one broken-link Error finding. -/
theorem c5_local_link_resolution (env : Env) (t : Tester) (fp txt url : String)
    (h1 : startsWithB "#" url = false) (h2 : startsWithB "http://" url = false)
    (h3 : startsWithB "https://" url = false) (h4 : startsWithB "mailto:" url = false) :
    resolve_link_path t.docs_path (parentOf fp) url
      = resolveLocalSpec t.docs_path (parentOf fp) url ∧
    (check_one_link env fp t (txt, url)).errors =
      t.errors ++
        (if env.fsExists (resolve_link_path t.docs_path (parentOf fp) url) = true then []
         else [(fp, Msg.brokenLink url (resolve_link_path t.docs_path (parentOf fp) url))]) ∧
    (check_one_link env fp t (txt, url)).stats.links_checked = t.stats.links_checked + 1 := by
  refine ⟨?_, ?_, ?_⟩
  · unfold resolve_link_path resolveLocalSpec
    cases hs : startsWithB "/" url <;>
      · simp only [hs, Bool.not_true, Bool.not_false, Bool.false_eq_true, if_false, if_true]
        split
        · rfl
        · rename_i hc
          rw [takeWhile_ne_of_not_contains '#' _ (by simpa [containsChar] using hc)]
  · unfold check_one_link
    simp only [h1, h2, h3, h4, Bool.or_self, Bool.false_eq_true, if_false, Tester.withStats]
    split <;> rename_i hfs <;> simp [hfs, add_error, Tester.withStats]
  · unfold check_one_link
    simp only [h1, h2, h3, h4, Bool.or_self, Bool.false_eq_true, if_false, Tester.withStats]
    split <;> simp [add_error, Tester.withStats, Stats.bumpLinks, Stats.bumpErrors]

/-- Witness for C5: the relative link `missing.md` from `docs/guide.md` with
a filesystem where nothing exists. -/
theorem c5_witness :
    resolve_link_path (initTester "root").docs_path (parentOf "docs/guide.md") "missing.md"
      = resolveLocalSpec (initTester "root").docs_path (parentOf "docs/guide.md") "missing.md" ∧
    (check_one_link envNoFs "docs/guide.md" (initTester "root") ("m", "missing.md")).errors =
      (initTester "root").errors ++
        (if envNoFs.fsExists
            (resolve_link_path (initTester "root").docs_path (parentOf "docs/guide.md")
              "missing.md") = true then []
         else
          [("docs/guide.md",
            Msg.brokenLink "missing.md"
              (resolve_link_path (initTester "root").docs_path (parentOf "docs/guide.md")
                "missing.md"))]) ∧
    (check_one_link envNoFs "docs/guide.md" (initTester "root")
        ("m", "missing.md")).stats.links_checked
      = (initTester "root").stats.links_checked + 1 :=
  c5_local_link_resolution envNoFs (initTester "root") "docs/guide.md" "m" "missing.md"
    (by decide) (by decide) (by decide) (by decide)

theorem foldl_fix {σ α β : Type} (μ : σ → β) (step : σ → α → σ)
    (h : ∀ s a, μ (step s a) = μ s) : ∀ (l : List α) (s : σ), μ (l.foldl step s) = μ s := by
  intro l
  induction l with
  | nil => intro s; rfl
  | cons a as ih => intro s; rw [List.foldl_cons, ih, h]

theorem cbt_py_result (t : Tester) (fp : String) (out : SubpOutcome) :
    (py_result_findings t fp out).stats.code_blocks_tested = t.stats.code_blocks_tested := by
  unfold py_result_findings
  split
  · split <;> rfl
  · rfl
  · rfl

theorem cbt_js_result (t : Tester) (fp : String) (out : SubpOutcome) :
    (js_result_findings t fp out).stats.code_blocks_tested = t.stats.code_blocks_tested := by
  unfold js_result_findings
  split
  · split <;> rfl
  · rfl
  · rfl

theorem cbt_test_python (env : Env) (t : Tester) (fp code : String) :
    (test_python_code env t fp code).stats.code_blocks_tested =
      t.stats.code_blocks_tested := by
  unfold test_python_code test_python_code_fs
  split
  · rfl
  · exact cbt_py_result t fp (env.pyOutcome code)

theorem cbt_test_js (env : Env) (t : Tester) (fp code : String) :
    (test_javascript_code env t fp code).stats.code_blocks_tested =
      t.stats.code_blocks_tested := by
  unfold test_javascript_code test_javascript_code_fs
  split
  · rfl
  · split
    · rfl
    · exact cbt_js_result t fp (env.jsOutcome code)

theorem cbt_test_bash (t : Tester) (fp code : String) :
    (test_bash_code t fp code).stats.code_blocks_tested = t.stats.code_blocks_tested := by
  unfold test_bash_code
  split
  · rfl
  · split
    · rfl
    · refine foldl_fix (fun s : Tester => s.stats.code_blocks_tested) _ ?_ _ t
      intro s line
      dsimp only
      split
      · rfl
      · split <;> rfl

theorem cbt_code_block_step (env : Env) (fp : String) (t : Tester) (p : String × String) :
    (code_block_step env fp t p).stats.code_blocks_tested =
      t.stats.code_blocks_tested +
        (if nonExecutable.contains (pyLower p.1) then 0 else 1) := by
  unfold code_block_step
  dsimp only
  split
  · simp
  · split
    · exact cbt_test_python env _ fp p.2
    · split
      · exact cbt_test_js env _ fp p.2
      · split
        · exact cbt_test_bash _ fp p.2
        · rfl

theorem cbt_foldl (env : Env) (fp : String) :
    ∀ (l : List (String × String)) (t : Tester),
      (l.foldl (code_block_step env fp) t).stats.code_blocks_tested =
        t.stats.code_blocks_tested +
          (l.filter (fun p => !(nonExecutable.contains (pyLower p.1)))).length := by
  intro l
  induction l with
  | nil => intro t; simp
  | cons a as ih =>
    intro t
    rw [List.foldl_cons, ih, cbt_code_block_step]
    by_cases h : pyLower a.1 ∈ nonExecutable
    · simp [h, List.filter_cons]
    · simp [h, List.filter_cons]
      omega

/-- C10: the `code_blocks_tested` counter counts exactly the fenced blocks
whose lowercased language tag is outside the non-executable list — including
languages with no handler and blocks later skipped as placeholders. -/
theorem c10_blocks_counter (env : Env) (t : Tester) (fp content : String) :
    (test_code_examples env t fp content).stats.code_blocks_tested =
      t.stats.code_blocks_tested +
        ((findCodeBlocks content.data).filter
          (fun p => !(nonExecutable.contains (pyLower p.1)))).length := by
  unfold test_code_examples
  exact cbt_foldl env fp (findCodeBlocks content.data) t

/-- C8: the auto-fix flag is declared but inert — the run produces identical
findings, statistics and verdict, and the process exit status is identical,
for any two values of the flag. -/
theorem c8_fix_flag_inert :
    (∀ (env : Env) (t : Tester) (files : List Doc) (e f1 f2 : Bool),
      run_all_tests env t files e f1 = run_all_tests env t files e f2) ∧
    (∀ (env : Env) (path : String) (files : List Doc) (e cl al f1 f2 : Bool),
      main_run env path files e cl f1 al = main_run env path files e cl f2 al) :=
  ⟨fun _ _ _ _ _ _ => rfl, fun _ _ _ _ _ _ _ _ => rfl⟩

/-- C3 (amended): provided the documentation path exists and at least one
markdown file was found, the exit status is zero iff the accumulated error
count is zero and, when external-link checking was requested, no broken
external links were found; warnings never affect the verdict.  (A run that
finds no markdown files exits non-zero even with zero errors.) -/
theorem c3_exit_status (env : Env) (path : String) (files : List Doc)
    (e cl fx al : Bool) (hp : env.fsExists path = true) (hf : files ≠ []) :
    main_run env path files e cl fx al = 0 ↔
      ((files.foldl (process_file env (if al then true else e) fx)
          (initTester path)).stats.errors = 0
        ∧ ((if al then true else cl) = true →
            (check_external_links env files).isEmpty = true)) := by
  have hne : files.isEmpty = false := by
    cases files
    · exact absurd rfl hf
    · rfl
  unfold main_run run_all_tests
  simp only [hp, hne, Bool.true_eq_false, Bool.false_eq_true, if_false]
  by_cases hcl : (if al then true else cl) = true <;>
    by_cases hb : (check_external_links env files).isEmpty <;>
      simp [hcl, hb]

/-- Witness for C3: a clean run over one plain document exits zero. -/
theorem c3_witness :
    main_run envBase "docs" [docPlain] false false false false = 0 ↔
      (([docPlain].foldl (process_file envBase (if false then true else false) false)
          (initTester "docs")).stats.errors = 0
        ∧ ((if false then true else false) = true →
            (check_external_links envBase [docPlain]).isEmpty = true)) :=
  c3_exit_status envBase "docs" [docPlain] false false false false rfl
    (List.cons_ne_nil _ _)

/-- Counterexample for C3 as stated: a run that finds no markdown files
exits 1 although the accumulated error count is 0. -/
theorem c3_counterexample :
    main_run envBase "docs" [] false false false false = 1 ∧
    (run_all_tests envBase (initTester "docs") [] false false).1.stats.errors = 0 :=
  ⟨rfl, rfl⟩

theorem countMsg_append (l1 l2 : List (String × Msg)) (p : Msg → Bool) :
    countMsg (l1 ++ l2) p = countMsg l1 p + countMsg l2 p := by
  simp [countMsg, List.filter_append]

theorem countMsg_single (fp : String) (m : Msg) (p : Msg → Bool) :
    countMsg [(fp, m)] p = if p m then 1 else 0 := by
  simp only [countMsg, List.filter_cons]
  split <;> simp_all

theorem cntE_add_error (t : Tester) (fp : String) (m : Msg) (p : Msg → Bool) :
    countMsg (add_error t fp m).errors p = countMsg t.errors p + (if p m then 1 else 0) := by
  show countMsg (t.errors ++ [(fp, m)]) p = _
  rw [countMsg_append, countMsg_single]

theorem cntW_add_warning (t : Tester) (fp : String) (m : Msg) (p : Msg → Bool) :
    countMsg (add_warning t fp m).warnings p =
      countMsg t.warnings p + (if p m then 1 else 0) := by
  show countMsg (t.warnings ++ [(fp, m)]) p = _
  rw [countMsg_append, countMsg_single]

theorem cntE_add_error_none (t : Tester) (fp : String) (m : Msg) (p : Msg → Bool)
    (hm : p m = false) :
    countMsg (add_error t fp m).errors p = countMsg t.errors p := by
  rw [cntE_add_error, hm]
  simp

theorem cntW_add_warning_none (t : Tester) (fp : String) (m : Msg) (p : Msg → Bool)
    (hm : p m = false) :
    countMsg (add_warning t fp m).warnings p = countMsg t.warnings p := by
  rw [cntW_add_warning, hm]
  simp

theorem errs_check_h1 (t : Tester) (fp c : String) : (check_h1 t fp c).errors = t.errors := by
  unfold check_h1
  split <;> rfl

theorem cntW_check_h1 (t : Tester) (fp c : String) (p : Msg → Bool) :
    countMsg (check_h1 t fp c).warnings p =
      countMsg t.warnings p + (if p Msg.multipleH1 = true ∧ h1Count c > 1 then 1 else 0) := by
  unfold check_h1
  split
  · rename_i h
    rw [cntW_add_warning]
    by_cases hp : p Msg.multipleH1 = true <;> simp [hp, h]
  · rename_i h
    simp [h]

theorem warns_check_empty (t : Tester) (fp c : String) :
    (check_empty_links t fp c).warnings = t.warnings := by
  unfold check_empty_links
  dsimp only
  split <;> rfl

theorem cntE_check_empty (t : Tester) (fp c : String) (p : Msg → Bool)
    (hp : ∀ ls, p (Msg.emptyLinks ls) = false) :
    countMsg (check_empty_links t fp c).errors p = countMsg t.errors p := by
  unfold check_empty_links
  dsimp only
  split
  · rw [cntE_add_error_none _ _ _ _ (hp _)]
  · rfl

theorem warns_check_fences (t : Tester) (fp c : String) :
    (check_fences t fp c).warnings = t.warnings := by
  unfold check_fences
  split <;> rfl

theorem cntE_check_fences (t : Tester) (fp c : String) (p : Msg → Bool) :
    countMsg (check_fences t fp c).errors p =
      countMsg t.errors p +
        (if p Msg.unclosedCodeBlock = true ∧ fenceCount c % 2 != 0 then 1 else 0) := by
  unfold check_fences
  split
  · rename_i h
    rw [cntE_add_error]
    by_cases hp : p Msg.unclosedCodeBlock = true <;> simp [hp, h]
  · rename_i h
    simp [h]

theorem errs_check_heading (t : Tester) (fp c : String) :
    (check_heading_hierarchy t fp c).errors = t.errors := by
  unfold check_heading_hierarchy
  exact foldl_fix (fun st : Nat × Tester => st.2.errors) _
    (fun s a => by
      unfold heading_step
      dsimp only
      split
      · split <;> rfl
      · rfl) _ (0, t)

theorem cntW_check_heading (t : Tester) (fp c : String) (p : Msg → Bool)
    (hp : ∀ i a b, p (Msg.skippedHeading i a b) = false) :
    countMsg (check_heading_hierarchy t fp c).warnings p = countMsg t.warnings p := by
  unfold check_heading_hierarchy
  exact foldl_fix (fun st : Nat × Tester => countMsg st.2.warnings p) _
    (fun s a => by
      unfold heading_step
      dsimp only
      split
      · split
        · exact cntW_add_warning_none _ _ _ _ (hp _ _ _)
        · rfl
      · rfl) _ (0, t)

theorem cntE_check_markdown (t : Tester) (fp c : String) (p : Msg → Bool)
    (hE : ∀ ls, p (Msg.emptyLinks ls) = false) :
    countMsg (check_markdown t fp c).errors p =
      countMsg t.errors p +
        (if p Msg.unclosedCodeBlock = true ∧ fenceCount c % 2 != 0 then 1 else 0) := by
  unfold check_markdown
  rw [errs_check_heading, cntE_check_fences, cntE_check_empty _ _ _ _ hE, errs_check_h1]

theorem cntW_check_markdown (t : Tester) (fp c : String) (p : Msg → Bool)
    (hSk : ∀ i a b, p (Msg.skippedHeading i a b) = false) :
    countMsg (check_markdown t fp c).warnings p =
      countMsg t.warnings p + (if p Msg.multipleH1 = true ∧ h1Count c > 1 then 1 else 0) := by
  unfold check_markdown
  rw [cntW_check_heading _ _ _ _ hSk, warns_check_fences, warns_check_empty, cntW_check_h1]

theorem warns_check_one_link (env : Env) (fp : String) (t : Tester) (lk : String × String) :
    (check_one_link env fp t lk).warnings = t.warnings := by
  unfold check_one_link
  dsimp only
  split
  · rfl
  · split
    · rfl
    · split
      · rfl
      · split <;> rfl

theorem cntE_check_one_link (env : Env) (fp : String) (t : Tester) (lk : String × String)
    (p : Msg → Bool) (hB : ∀ u l, p (Msg.brokenLink u l) = false) :
    countMsg (check_one_link env fp t lk).errors p = countMsg t.errors p := by
  unfold check_one_link
  dsimp only
  split
  · rfl
  · split
    · rfl
    · split
      · rfl
      · split
        · rfl
        · rw [cntE_add_error_none _ _ _ _ (hB _ _)]
          rfl

theorem warns_check_links (env : Env) (t : Tester) (fp c : String) (fx : Bool) :
    (check_links env t fp c fx).warnings = t.warnings := by
  unfold check_links
  exact foldl_fix (fun s : Tester => s.warnings) _
    (fun s a => warns_check_one_link env fp s a) _ t

theorem cntE_check_links (env : Env) (t : Tester) (fp c : String) (fx : Bool)
    (p : Msg → Bool) (hB : ∀ u l, p (Msg.brokenLink u l) = false) :
    countMsg (check_links env t fp c fx).errors p = countMsg t.errors p := by
  unfold check_links
  exact foldl_fix (fun s : Tester => countMsg s.errors p) _
    (fun s a => cntE_check_one_link env fp s a p hB) _ t

theorem errs_check_todos (t : Tester) (fp c : String) :
    (check_todos t fp c).errors = t.errors := by
  unfold check_todos
  dsimp only
  split <;> rfl

theorem cntW_check_todos (t : Tester) (fp c : String) (p : Msg → Bool)
    (hp : ∀ n, p (Msg.todoMarkers n) = false) :
    countMsg (check_todos t fp c).warnings p = countMsg t.warnings p := by
  unfold check_todos
  dsimp only
  split
  · exact cntW_add_warning_none _ _ _ _ (hp _)
  · rfl

theorem errs_check_long_lines (t : Tester) (fp c : String) :
    (check_long_lines t fp c).errors = t.errors := by
  unfold check_long_lines
  exact foldl_fix (fun st : Bool × Tester => st.2.errors) _
    (fun s a => by
      unfold long_line_step
      dsimp only
      split
      · rfl
      · split <;> rfl) _ (false, t)

theorem cntW_check_long_lines (t : Tester) (fp c : String) (p : Msg → Bool)
    (hp : ∀ i n, p (Msg.longLine i n) = false) :
    countMsg (check_long_lines t fp c).warnings p = countMsg t.warnings p := by
  unfold check_long_lines
  exact foldl_fix (fun st : Bool × Tester => countMsg st.2.warnings p) _
    (fun s a => by
      unfold long_line_step
      dsimp only
      split
      · rfl
      · split
        · exact cntW_add_warning_none _ _ _ _ (hp _ _)
        · rfl) _ (false, t)

theorem errs_check_typos (t : Tester) (fp c : String) :
    (check_typos t fp c).errors = t.errors := by
  unfold check_typos
  dsimp only
  split <;> split <;> split <;> rfl

theorem cntW_check_typos (t : Tester) (fp c : String) (p : Msg → Bool)
    (hp : ∀ d, p (Msg.typo d) = false) :
    countMsg (check_typos t fp c).warnings p = countMsg t.warnings p := by
  unfold check_typos
  dsimp only
  split <;> split <;> split <;>
    simp only [cntW_add_warning_none _ _ _ _ (hp _)]

theorem errs_check_common (t : Tester) (fp c : String) :
    (check_common_issues t fp c).errors = t.errors := by
  unfold check_common_issues
  rw [errs_check_typos, errs_check_long_lines, errs_check_todos]

theorem cntW_check_common (t : Tester) (fp c : String) (p : Msg → Bool)
    (hTd : ∀ n, p (Msg.todoMarkers n) = false) (hLL : ∀ i n, p (Msg.longLine i n) = false)
    (hTy : ∀ d, p (Msg.typo d) = false) :
    countMsg (check_common_issues t fp c).warnings p = countMsg t.warnings p := by
  unfold check_common_issues
  rw [cntW_check_typos _ _ _ _ hTy, cntW_check_long_lines _ _ _ _ hLL,
    cntW_check_todos _ _ _ _ hTd]

theorem warns_py_result (t : Tester) (fp : String) (out : SubpOutcome) (p : Msg → Bool)
    (hT : p Msg.pyTimeout = false) (hC : ∀ e, p (Msg.pyCouldNotTest e) = false) :
    countMsg (py_result_findings t fp out).warnings p = countMsg t.warnings p := by
  unfold py_result_findings
  split
  · split <;> rfl
  · exact cntW_add_warning_none _ _ _ _ hT
  · exact cntW_add_warning_none _ _ _ _ (hC _)

theorem cntE_py_result (t : Tester) (fp : String) (out : SubpOutcome) (p : Msg → Bool)
    (hS : ∀ s, p (Msg.pySyntaxError s) = false) :
    countMsg (py_result_findings t fp out).errors p = countMsg t.errors p := by
  unfold py_result_findings
  split
  · split
    · rw [cntE_add_error_none _ _ _ _ (hS _)]
    · rfl
  · rfl
  · rfl

theorem warns_js_result (t : Tester) (fp : String) (out : SubpOutcome) (p : Msg → Bool)
    (hT : p Msg.jsTimeout = false) (hC : ∀ e, p (Msg.jsCouldNotTest e) = false) :
    countMsg (js_result_findings t fp out).warnings p = countMsg t.warnings p := by
  unfold js_result_findings
  split
  · split <;> rfl
  · exact cntW_add_warning_none _ _ _ _ hT
  · exact cntW_add_warning_none _ _ _ _ (hC _)

theorem cntE_js_result (t : Tester) (fp : String) (out : SubpOutcome) (p : Msg → Bool)
    (hS : ∀ s, p (Msg.jsSyntaxError s) = false) :
    countMsg (js_result_findings t fp out).errors p = countMsg t.errors p := by
  unfold js_result_findings
  split
  · split
    · rw [cntE_add_error_none _ _ _ _ (hS _)]
    · rfl
  · rfl
  · rfl

theorem cntE_test_python (env : Env) (t : Tester) (fp code : String) (p : Msg → Bool)
    (hS : ∀ s, p (Msg.pySyntaxError s) = false) :
    countMsg (test_python_code env t fp code).errors p = countMsg t.errors p := by
  unfold test_python_code test_python_code_fs
  split
  · rfl
  · exact cntE_py_result t fp (env.pyOutcome code) p hS

theorem warns_test_python (env : Env) (t : Tester) (fp code : String) (p : Msg → Bool)
    (hT : p Msg.pyTimeout = false) (hC : ∀ e, p (Msg.pyCouldNotTest e) = false) :
    countMsg (test_python_code env t fp code).warnings p = countMsg t.warnings p := by
  unfold test_python_code test_python_code_fs
  split
  · rfl
  · exact warns_py_result t fp (env.pyOutcome code) p hT hC

theorem cntE_test_js (env : Env) (t : Tester) (fp code : String) (p : Msg → Bool)
    (hS : ∀ s, p (Msg.jsSyntaxError s) = false) :
    countMsg (test_javascript_code env t fp code).errors p = countMsg t.errors p := by
  unfold test_javascript_code test_javascript_code_fs
  split
  · rfl
  · split
    · rfl
    · exact cntE_js_result t fp (env.jsOutcome code) p hS

theorem warns_test_js (env : Env) (t : Tester) (fp code : String) (p : Msg → Bool)
    (hT : p Msg.jsTimeout = false) (hC : ∀ e, p (Msg.jsCouldNotTest e) = false) :
    countMsg (test_javascript_code env t fp code).warnings p = countMsg t.warnings p := by
  unfold test_javascript_code test_javascript_code_fs
  split
  · rfl
  · split
    · rfl
    · exact warns_js_result t fp (env.jsOutcome code) p hT hC

theorem errs_test_bash (t : Tester) (fp code : String) :
    (test_bash_code t fp code).errors = t.errors := by
  unfold test_bash_code
  split
  · rfl
  · split
    · rfl
    · exact foldl_fix (fun s : Tester => s.errors) _
        (fun s line => by
          dsimp only
          split
          · rfl
          · split <;> rfl) _ t

theorem cntW_test_bash (t : Tester) (fp code : String) (p : Msg → Bool)
    (hB : ∀ l, p (Msg.bashUnmatchedQuotes l) = false) :
    countMsg (test_bash_code t fp code).warnings p = countMsg t.warnings p := by
  unfold test_bash_code
  split
  · rfl
  · split
    · rfl
    · exact foldl_fix (fun s : Tester => countMsg s.warnings p) _
        (fun s line => by
          dsimp only
          split
          · rfl
          · split
            · exact cntW_add_warning_none _ _ _ _ (hB _)
            · rfl) _ t

theorem cntE_code_block_step (env : Env) (fp : String) (t : Tester) (b : String × String)
    (p : Msg → Bool) (hPy : ∀ s, p (Msg.pySyntaxError s) = false)
    (hJs : ∀ s, p (Msg.jsSyntaxError s) = false) :
    countMsg (code_block_step env fp t b).errors p = countMsg t.errors p := by
  unfold code_block_step
  dsimp only
  split
  · rfl
  · split
    · exact cntE_test_python env _ fp b.2 p hPy
    · split
      · exact cntE_test_js env _ fp b.2 p hJs
      · split
        · rw [errs_test_bash]
          rfl
        · rfl

theorem cntW_code_block_step (env : Env) (fp : String) (t : Tester) (b : String × String)
    (p : Msg → Bool) (hPyT : p Msg.pyTimeout = false)
    (hPyC : ∀ e, p (Msg.pyCouldNotTest e) = false) (hJsT : p Msg.jsTimeout = false)
    (hJsC : ∀ e, p (Msg.jsCouldNotTest e) = false)
    (hBash : ∀ l, p (Msg.bashUnmatchedQuotes l) = false) :
    countMsg (code_block_step env fp t b).warnings p = countMsg t.warnings p := by
  unfold code_block_step
  dsimp only
  split
  · rfl
  · split
    · exact warns_test_python env _ fp b.2 p hPyT hPyC
    · split
      · exact warns_test_js env _ fp b.2 p hJsT hJsC
      · split
        · exact cntW_test_bash _ fp b.2 p hBash
        · rfl

theorem cntE_test_code_examples (env : Env) (t : Tester) (fp c : String) (p : Msg → Bool)
    (hPy : ∀ s, p (Msg.pySyntaxError s) = false)
    (hJs : ∀ s, p (Msg.jsSyntaxError s) = false) :
    countMsg (test_code_examples env t fp c).errors p = countMsg t.errors p := by
  unfold test_code_examples
  exact foldl_fix (fun s : Tester => countMsg s.errors p) _
    (fun s b => cntE_code_block_step env fp s b p hPy hJs) _ t

theorem cntW_test_code_examples (env : Env) (t : Tester) (fp c : String) (p : Msg → Bool)
    (hPyT : p Msg.pyTimeout = false) (hPyC : ∀ e, p (Msg.pyCouldNotTest e) = false)
    (hJsT : p Msg.jsTimeout = false) (hJsC : ∀ e, p (Msg.jsCouldNotTest e) = false)
    (hBash : ∀ l, p (Msg.bashUnmatchedQuotes l) = false) :
    countMsg (test_code_examples env t fp c).warnings p = countMsg t.warnings p := by
  unfold test_code_examples
  exact foldl_fix (fun s : Tester => countMsg s.warnings p) _
    (fun s b => cntW_code_block_step env fp s b p hPyT hPyC hJsT hJsC hBash) _ t

theorem cntE_process_file (env : Env) (e fx : Bool) (t : Tester) (d : Doc) (p : Msg → Bool)
    (hE : ∀ ls, p (Msg.emptyLinks ls) = false) (hB : ∀ u l, p (Msg.brokenLink u l) = false)
    (hPy : ∀ s, p (Msg.pySyntaxError s) = false) (hJs : ∀ s, p (Msg.jsSyntaxError s) = false)
    (hskip : (inStr "node_modules" d.path || inStr ".git" d.path) = false) :
    countMsg (process_file env e fx t d).errors p =
      countMsg t.errors p +
        (if p Msg.unclosedCodeBlock = true ∧ fenceCount d.content % 2 != 0 then 1 else 0) := by
  unfold process_file
  rw [if_neg (show ¬((inStr "node_modules" d.path || inStr ".git" d.path) = true) by
    simp [hskip])]
  dsimp only
  split
  · rw [cntE_test_code_examples _ _ _ _ _ hPy hJs, errs_check_common,
      cntE_check_links _ _ _ _ _ _ hB, cntE_check_markdown _ _ _ _ hE]
    rfl
  · rw [errs_check_common, cntE_check_links _ _ _ _ _ _ hB, cntE_check_markdown _ _ _ _ hE]
    rfl

theorem cntW_process_file (env : Env) (e fx : Bool) (t : Tester) (d : Doc) (p : Msg → Bool)
    (hSk : ∀ i a b, p (Msg.skippedHeading i a b) = false)
    (hTd : ∀ n, p (Msg.todoMarkers n) = false) (hLL : ∀ i n, p (Msg.longLine i n) = false)
    (hTy : ∀ dsc, p (Msg.typo dsc) = false) (hPyT : p Msg.pyTimeout = false)
    (hPyC : ∀ x, p (Msg.pyCouldNotTest x) = false) (hJsT : p Msg.jsTimeout = false)
    (hJsC : ∀ x, p (Msg.jsCouldNotTest x) = false)
    (hBash : ∀ l, p (Msg.bashUnmatchedQuotes l) = false)
    (hskip : (inStr "node_modules" d.path || inStr ".git" d.path) = false) :
    countMsg (process_file env e fx t d).warnings p =
      countMsg t.warnings p +
        (if p Msg.multipleH1 = true ∧ h1Count d.content > 1 then 1 else 0) := by
  unfold process_file
  rw [if_neg (show ¬((inStr "node_modules" d.path || inStr ".git" d.path) = true) by
    simp [hskip])]
  dsimp only
  split
  · rw [cntW_test_code_examples _ _ _ _ _ hPyT hPyC hJsT hJsC hBash,
      cntW_check_common _ _ _ _ hTd hLL hTy, warns_check_links,
      cntW_check_markdown _ _ _ _ hSk]
    rfl
  · rw [cntW_check_common _ _ _ _ hTd hLL hTy, warns_check_links,
      cntW_check_markdown _ _ _ _ hSk]
    rfl

/-- C6: processing a document appends no fence-parity Error finding when the
triple-fence marker count is even, and exactly one when it is odd, however
many blocks are left open. -/
theorem c6_fence_parity (env : Env) (e fx : Bool) (t : Tester) (d : Doc)
    (hskip : (inStr "node_modules" d.path || inStr ".git" d.path) = false) :
    countMsg (process_file env e fx t d).errors Msg.isUnclosed =
      countMsg t.errors Msg.isUnclosed +
        (if fenceCount d.content % 2 != 0 then 1 else 0) := by
  rw [cntE_process_file env e fx t d Msg.isUnclosed (fun _ => rfl) (fun _ _ => rfl)
    (fun _ => rfl) (fun _ => rfl) hskip]
  simp [Msg.isUnclosed]

/-- Witness for C6: a document with a single (odd) fence marker. -/
theorem c6_witness :
    countMsg (process_file envBase false false (initTester "docs") docOddFence).errors
        Msg.isUnclosed =
      countMsg (initTester "docs").errors Msg.isUnclosed +
        (if fenceCount docOddFence.content % 2 != 0 then 1 else 0) :=
  c6_fence_parity envBase false false (initTester "docs") docOddFence (by decide)

/-- C4 (amended): a document with more than one level-1 heading line receives
exactly one multiple-top-level-headings Warning finding (not an Error),
independent of how many level-1 headings exist beyond the second; no Error
finding of that kind is ever produced. -/
theorem c4_multiple_h1 (env : Env) (e fx : Bool) (t : Tester) (d : Doc)
    (hskip : (inStr "node_modules" d.path || inStr ".git" d.path) = false) :
    countMsg (process_file env e fx t d).warnings Msg.isMultH1 =
      countMsg t.warnings Msg.isMultH1 + (if h1Count d.content > 1 then 1 else 0) ∧
    countMsg (process_file env e fx t d).errors Msg.isMultH1 =
      countMsg t.errors Msg.isMultH1 := by
  constructor
  · rw [cntW_process_file env e fx t d Msg.isMultH1 (fun _ _ _ => rfl) (fun _ => rfl)
      (fun _ _ => rfl) (fun _ => rfl) rfl (fun _ => rfl) rfl (fun _ => rfl) (fun _ => rfl)
      hskip]
    simp [Msg.isMultH1]
  · rw [cntE_process_file env e fx t d Msg.isMultH1 (fun _ => rfl) (fun _ _ => rfl)
      (fun _ => rfl) (fun _ => rfl) hskip]
    simp [Msg.isMultH1]

/-- Witness for C4: the two-heading document. -/
theorem c4_witness :
    countMsg (process_file envBase false false (initTester "docs") docTwoH1).warnings
        Msg.isMultH1 =
      countMsg (initTester "docs").warnings Msg.isMultH1 +
        (if h1Count docTwoH1.content > 1 then 1 else 0) ∧
    countMsg (process_file envBase false false (initTester "docs") docTwoH1).errors
        Msg.isMultH1 =
      countMsg (initTester "docs").errors Msg.isMultH1 :=
  c4_multiple_h1 envBase false false (initTester "docs") docTwoH1 (by decide)

/-- Counterexample for C4 as stated: a document with two level-1 headings
produces the multiple-top-level-headings finding as a Warning and produces no
Error finding at all. -/
theorem c4_counterexample :
    (process_file envBase false false (initTester "docs") docTwoH1).errors = [] ∧
    (process_file envBase false false (initTester "docs") docTwoH1).warnings =
      [("docs/a.md", Msg.multipleH1)] :=
  ⟨rfl, rfl⟩

theorem foldl_stats_mono {σ α : Type} (proj : σ → Tester) (step : σ → α → σ)
    (h : ∀ s a, statsLe (proj s).stats (proj (step s a)).stats) :
    ∀ (l : List α) (s : σ), statsLe (proj s).stats (proj (l.foldl step s)).stats := by
  intro l
  induction l with
  | nil => intro s; exact statsLe_refl _
  | cons a as ih => intro s; exact statsLe_trans (h s a) (ih (step s a))

theorem statsLe_bumpFiles (s : Stats) : statsLe s s.bumpFiles :=
  ⟨Nat.le_succ _, Nat.le_refl _, Nat.le_refl _, Nat.le_refl _, Nat.le_refl _⟩

theorem statsLe_bumpLinks (s : Stats) : statsLe s s.bumpLinks :=
  ⟨Nat.le_refl _, Nat.le_succ _, Nat.le_refl _, Nat.le_refl _, Nat.le_refl _⟩

theorem statsLe_bumpBlocks (s : Stats) : statsLe s s.bumpBlocks :=
  ⟨Nat.le_refl _, Nat.le_refl _, Nat.le_succ _, Nat.le_refl _, Nat.le_refl _⟩

theorem statsLe_bumpErrors (s : Stats) : statsLe s s.bumpErrors :=
  ⟨Nat.le_refl _, Nat.le_refl _, Nat.le_refl _, Nat.le_succ _, Nat.le_refl _⟩

theorem statsLe_bumpWarnings (s : Stats) : statsLe s s.bumpWarnings :=
  ⟨Nat.le_refl _, Nat.le_refl _, Nat.le_refl _, Nat.le_refl _, Nat.le_succ _⟩

theorem mono_check_h1 (t : Tester) (fp c : String) : statsLe t.stats (check_h1 t fp c).stats := by
  unfold check_h1
  split
  · exact statsLe_bumpWarnings _
  · exact statsLe_refl _

theorem mono_check_empty (t : Tester) (fp c : String) :
    statsLe t.stats (check_empty_links t fp c).stats := by
  unfold check_empty_links
  dsimp only
  split
  · exact statsLe_bumpErrors _
  · exact statsLe_refl _

theorem mono_check_fences (t : Tester) (fp c : String) :
    statsLe t.stats (check_fences t fp c).stats := by
  unfold check_fences
  split
  · exact statsLe_bumpErrors _
  · exact statsLe_refl _

theorem mono_check_heading (t : Tester) (fp c : String) :
    statsLe t.stats (check_heading_hierarchy t fp c).stats := by
  unfold check_heading_hierarchy
  exact foldl_stats_mono (fun st : Nat × Tester => st.2) _
    (fun s a => by
      unfold heading_step
      dsimp only
      split
      · split
        · exact statsLe_bumpWarnings _
        · exact statsLe_refl _
      · exact statsLe_refl _) _ (0, t)

theorem mono_check_markdown (t : Tester) (fp c : String) :
    statsLe t.stats (check_markdown t fp c).stats := by
  unfold check_markdown
  exact statsLe_trans (mono_check_h1 t fp c)
    (statsLe_trans (mono_check_empty _ fp c)
      (statsLe_trans (mono_check_fences _ fp c) (mono_check_heading _ fp c)))

theorem mono_check_one_link (env : Env) (fp : String) (t : Tester) (lk : String × String) :
    statsLe t.stats (check_one_link env fp t lk).stats := by
  unfold check_one_link
  dsimp only
  split
  · exact statsLe_bumpLinks _
  · split
    · exact statsLe_bumpLinks _
    · split
      · exact statsLe_bumpLinks _
      · split
        · exact statsLe_bumpLinks _
        · exact statsLe_trans (statsLe_bumpLinks _) (statsLe_bumpErrors _)

theorem mono_check_links (env : Env) (t : Tester) (fp c : String) (fx : Bool) :
    statsLe t.stats (check_links env t fp c fx).stats := by
  unfold check_links
  exact foldl_stats_mono (fun s : Tester => s) _
    (fun s a => mono_check_one_link env fp s a) _ t

theorem mono_check_todos (t : Tester) (fp c : String) :
    statsLe t.stats (check_todos t fp c).stats := by
  unfold check_todos
  dsimp only
  split
  · exact statsLe_bumpWarnings _
  · exact statsLe_refl _

theorem mono_check_long_lines (t : Tester) (fp c : String) :
    statsLe t.stats (check_long_lines t fp c).stats := by
  unfold check_long_lines
  exact foldl_stats_mono (fun st : Bool × Tester => st.2) _
    (fun s a => by
      unfold long_line_step
      dsimp only
      split
      · exact statsLe_refl _
      · split
        · exact statsLe_bumpWarnings _
        · exact statsLe_refl _) _ (false, t)

theorem mono_check_typos (t : Tester) (fp c : String) :
    statsLe t.stats (check_typos t fp c).stats := by
  unfold check_typos
  dsimp only
  split <;> split <;> split <;>
    first
      | exact statsLe_refl _
      | exact statsLe_bumpWarnings _
      | exact statsLe_trans (statsLe_bumpWarnings _) (statsLe_bumpWarnings _)
      | exact statsLe_trans (statsLe_trans (statsLe_bumpWarnings _) (statsLe_bumpWarnings _))
          (statsLe_bumpWarnings _)

theorem mono_check_common (t : Tester) (fp c : String) :
    statsLe t.stats (check_common_issues t fp c).stats := by
  unfold check_common_issues
  exact statsLe_trans (mono_check_todos t fp c)
    (statsLe_trans (mono_check_long_lines _ fp c) (mono_check_typos _ fp c))

theorem mono_py_result (t : Tester) (fp : String) (out : SubpOutcome) :
    statsLe t.stats (py_result_findings t fp out).stats := by
  unfold py_result_findings
  split
  · split
    · exact statsLe_bumpErrors _
    · exact statsLe_refl _
  · exact statsLe_bumpWarnings _
  · exact statsLe_bumpWarnings _

theorem mono_js_result (t : Tester) (fp : String) (out : SubpOutcome) :
    statsLe t.stats (js_result_findings t fp out).stats := by
  unfold js_result_findings
  split
  · split
    · exact statsLe_bumpErrors _
    · exact statsLe_refl _
  · exact statsLe_bumpWarnings _
  · exact statsLe_bumpWarnings _

theorem mono_test_python (env : Env) (t : Tester) (fp code : String) :
    statsLe t.stats (test_python_code env t fp code).stats := by
  unfold test_python_code test_python_code_fs
  split
  · exact statsLe_refl _
  · exact mono_py_result t fp (env.pyOutcome code)

theorem mono_test_js (env : Env) (t : Tester) (fp code : String) :
    statsLe t.stats (test_javascript_code env t fp code).stats := by
  unfold test_javascript_code test_javascript_code_fs
  split
  · exact statsLe_refl _
  · split
    · exact statsLe_refl _
    · exact mono_js_result t fp (env.jsOutcome code)

theorem mono_test_bash (t : Tester) (fp code : String) :
    statsLe t.stats (test_bash_code t fp code).stats := by
  unfold test_bash_code
  split
  · exact statsLe_refl _
  · split
    · exact statsLe_refl _
    · exact foldl_stats_mono (fun s : Tester => s) _
        (fun s line => by
          dsimp only
          split
          · exact statsLe_refl _
          · split
            · exact statsLe_bumpWarnings _
            · exact statsLe_refl _) _ t

theorem mono_code_block_step (env : Env) (fp : String) (t : Tester) (b : String × String) :
    statsLe t.stats (code_block_step env fp t b).stats := by
  unfold code_block_step
  dsimp only
  split
  · exact statsLe_refl _
  · split
    · exact statsLe_trans (statsLe_bumpBlocks _)
        (mono_test_python env (t.withStats t.stats.bumpBlocks) fp b.2)
    · split
      · exact statsLe_trans (statsLe_bumpBlocks _)
          (mono_test_js env (t.withStats t.stats.bumpBlocks) fp b.2)
      · split
        · exact statsLe_trans (statsLe_bumpBlocks _)
            (mono_test_bash (t.withStats t.stats.bumpBlocks) fp b.2)
        · exact statsLe_bumpBlocks _

theorem mono_test_code_examples (env : Env) (t : Tester) (fp c : String) :
    statsLe t.stats (test_code_examples env t fp c).stats := by
  unfold test_code_examples
  exact foldl_stats_mono (fun s : Tester => s) _
    (fun s b => mono_code_block_step env fp s b) _ t

theorem mono_process_file (env : Env) (e fx : Bool) (t : Tester) (d : Doc) :
    statsLe t.stats (process_file env e fx t d).stats := by
  unfold process_file
  dsimp only
  split
  · exact statsLe_refl _
  · refine statsLe_trans (statsLe_bumpFiles t.stats) ?_
    refine statsLe_trans
      (mono_check_markdown (t.withStats t.stats.bumpFiles) d.path d.content) ?_
    refine statsLe_trans
      (mono_check_links env (check_markdown (t.withStats t.stats.bumpFiles) d.path d.content)
        d.path d.content fx) ?_
    refine statsLe_trans
      (mono_check_common
        (check_links env (check_markdown (t.withStats t.stats.bumpFiles) d.path d.content)
          d.path d.content fx) d.path d.content) ?_
    split
    · exact mono_test_code_examples env _ d.path d.content
    · exact statsLe_refl _

/-- C9: every statistics counter is monotonically non-decreasing — the two
finding operations only increment, each per-file step only increments, and
the whole run never decreases any counter from its initial value. -/
theorem c9_stats_monotone :
    (∀ (t : Tester) (fp : String) (m : Msg), statsLe t.stats (add_error t fp m).stats) ∧
    (∀ (t : Tester) (fp : String) (m : Msg), statsLe t.stats (add_warning t fp m).stats) ∧
    (∀ (env : Env) (e fx : Bool) (t : Tester) (d : Doc),
      statsLe t.stats (process_file env e fx t d).stats) ∧
    (∀ (env : Env) (t : Tester) (files : List Doc) (e fx : Bool),
      statsLe t.stats ((run_all_tests env t files e fx).1).stats) := by
  refine ⟨fun t fp m => statsLe_bumpErrors _, fun t fp m => statsLe_bumpWarnings _,
    fun env e fx t d => mono_process_file env e fx t d, fun env t files e fx => ?_⟩
  unfold run_all_tests
  split
  · exact statsLe_refl _
  · exact foldl_stats_mono (fun s : Tester => s) _
      (fun s d => mono_process_file env e fx s d) files t
